import Mathlib

/-!
# AetherFrame pipeline orchestration engine — shallow embedding

This file embeds, in Lean, the parts of the AetherFrame source that the
verified claims are about:

* `aetherframe/core/pipeline.py` — `StageCondition`, `PipelineStage`,
  `Pipeline`, `PipelineExecutionResult`, `PipelineExecutor.execute`
  and `PipelineExecutor._should_execute_stage`;
* `aetherframe/plugins/registry.py` — `PluginRegistry.get_instance`;
* `aetherframe/core/orchestrator.py` — `Orchestrator.cancel` and
  `Orchestrator._persist_results`;
* `aetherframe/core/tasks.py` — the worker task `process_job`;
* `aetherframe/core/repository.py` — `create_trace_event`;
* `aetherframe/schemas/trace_event.py` — `TraceEvent` (the `sequence`
  field defaults to 0);
* `aetherframe/core/models.py` — the store-side `JobStatus` enum;
* `aetherframe/schemas/job.py` — the schema-side `JobStatus` enum.

Python dictionaries with string keys are embedded as association lists
with Python's update semantics (replace in place, append new keys at the
end).  Python floats that carry risk scores are embedded as `Rat`.
Plugin code (`validate` / `run`), the wall clock, the database row writes
and the dynamic `eval` of `condition_expr` are external to the embedded
engine; they enter as explicit oracle parameters, so every theorem
quantifies over all of their possible behaviours.
-/

/-- A scalar value as it occurs in the engine's dictionaries
(`config`, `payload`, `context_data`, `pipeline_context`).  Numbers are
embedded as `Rat`; the `strlist` constructor covers the one place the
executor stores a list of stage names in an event payload. -/
inductive PyVal where
  | str (s : String)
  | rat (q : Rat)
  | bool (b : Bool)
  | strlist (xs : List String)
  | pynone
deriving Repr, DecidableEq

/-- A Python `dict[str, ...]` as an association list (unique keys,
insertion-ordered). -/
abbrev PyDict := List (String × PyVal)

/-- `d.get(k)` / `d[k]` lookup: the value at the first (for a dict:
only) occurrence of the key. -/
def dictGet : PyDict → String → Option PyVal
  | [], _ => none
  | p :: rest, k => if p.1 = k then some p.2 else dictGet rest k

/-- `d[k] = v`: replace the value in place if the key exists, otherwise
append the new pair (Python dict insertion order). -/
def dictSet : PyDict → String → PyVal → PyDict
  | [], k, v => [(k, v)]
  | p :: rest, k, v => if p.1 = k then (k, v) :: rest else p :: dictSet rest k v

/-- `d.update(other)`: fold `dictSet` over the other dict's items. -/
def dictUpdate (d other : PyDict) : PyDict :=
  other.foldl (fun acc p => dictSet acc p.1 p.2) d

/-- `context.get("_risk_score", 0)` as a number (the executor only ever
stores numbers under this key itself; a non-numeric value reads as its
default 0 here). -/
def riskOf (d : PyDict) : Rat :=
  match dictGet d "_risk_score" with
  | some (PyVal.rat q) => q
  | _ => 0

/-- Truthiness of an `Optional[str]`: `None` and `""` are falsy. -/
def strOptTruthy : Option String → Bool
  | none => false
  | some s => s ≠ ""

/-- Truthiness of an `Optional[float]`: `None` and `0.0` are falsy
(this is the `if result.risk_score:` test in the executor). -/
def ratOptTruthy : Option Rat → Bool
  | none => false
  | some q => q ≠ 0

/-- `aetherframe/schemas/trace_event.py` — `EventSource`. -/
inductive EventSource where
  | laintrace
  | mnemosyne
  | umbriel
  | valkyrie
  | noema
  | orchestrator
  | plugin
deriving Repr, DecidableEq

/-- `aetherframe/schemas/trace_event.py` — `EventType`. -/
inductive EventType where
  | hook_enter
  | hook_exit
  | hook_replace
  | state_init
  | state_change
  | state_snapshot
  | memory_read
  | memory_write
  | memory_alloc
  | memory_free
  | memory_protect
  | syscall_enter
  | syscall_exit
  | metric_cpu
  | metric_memory
  | metric_io
  | stage_start
  | stage_complete
  | stage_error
  | info
  | warning
  | error
deriving Repr, DecidableEq

/-- `aetherframe/schemas/trace_event.py` — `TraceEvent`.  The fields the
engine reads or writes; `ts` is an abstract timestamp (the pydantic
default is the wall clock at construction time) and `sequence` has the
schema default 0, which nothing in the engine ever overrides. -/
structure TraceEvent where
  job_id : Nat
  ts : Nat
  source : EventSource
  event_type : EventType
  payload : PyDict := []
  symbol : Option String := none
  address : Option String := none
  thread_id : Option Nat := none
  sequence : Int := 0
deriving Repr, DecidableEq

/-- `aetherframe/schemas/finding.py` — `Finding`, reduced to the fields
the executor touches: `plugin_id` and `stage` are stamped by the
executor; `body` stands for all the other (opaque) payload fields. -/
structure Finding where
  body : Nat
  plugin_id : Option String := none
  stage : Option String := none
deriving Repr, DecidableEq

/-- `aetherframe/schemas/artifact.py` — `Artifact`, reduced the same
way as `Finding`. -/
structure Artifact where
  body : Nat
  plugin_id : Option String := none
  stage : Option String := none
deriving Repr, DecidableEq

/-- `aetherframe/schemas/plugin_result.py` — `PluginResult`, with the
pydantic defaults. -/
structure PluginResult where
  findings : List Finding := []
  artifacts : List Artifact := []
  events : List TraceEvent := []
  success : Bool := true
  error : Option String := none
  skip_remaining : Bool := false
  risk_score : Option Rat := none
  context_data : PyDict := []
deriving Repr, DecidableEq

/-- `aetherframe/core/pipeline.py` — `StageCondition`. -/
inductive StageCondition where
  | always
  | on_success
  | on_failure
  | on_findings
  | on_high_risk
  | conditional
deriving Repr, DecidableEq

/-- `aetherframe/core/pipeline.py` — `PipelineStage` with its dataclass
defaults. -/
structure PipelineStage where
  name : String
  plugin_id : String
  config : PyDict := []
  condition : StageCondition := StageCondition.on_success
  condition_expr : Option String := none
  timeout_seconds : Nat := 300
  optional : Bool := false
deriving Repr, DecidableEq

/-- `aetherframe/core/pipeline.py` — `Pipeline` (the fields the executor
uses). -/
structure Pipeline where
  id : String
  name : String
  description : String := ""
  stages : List PipelineStage := []
deriving Repr, DecidableEq

/-- The dynamic `eval(stage.condition_expr, {"ctx": context, "result":
last_result})` of `_should_execute_stage`, as an oracle: it sees the
expression string, the running pipeline context and the previous stage
result, and produces the boolean outcome (an evaluation error, which the
source turns into `False`, is the oracle returning `false`). -/
abbrev CondEval := String → PyDict → PluginResult → Bool

/-- `PipelineExecutor._should_execute_stage`, line by line: `always` runs
unconditionally; with no previous result only `always` runs; otherwise
the condition is tested against the previous result and the context, and
everything that falls through (in particular `conditional` with an unset
or empty `condition_expr`) returns `True`. -/
def shouldExecuteStage (evalExpr : CondEval) (stage : PipelineStage)
    (last_result : Option PluginResult) (context : PyDict) : Bool :=
  if stage.condition = StageCondition.always then true
  else
    match last_result with
    | none => stage.condition = StageCondition.always
    | some lr =>
      if stage.condition = StageCondition.on_success then lr.success
      else if stage.condition = StageCondition.on_failure then !lr.success
      else if stage.condition = StageCondition.on_findings then lr.findings.length > 0
      else if stage.condition = StageCondition.on_high_risk then riskOf context ≥ (7 : Rat)/10
      else if stage.condition = StageCondition.conditional ∧ strOptTruthy stage.condition_expr then
        match stage.condition_expr with
        | some e => evalExpr e context lr
        | none => false
      else true

example : shouldExecuteStage (fun _ _ _ => false)
    { name := "s", plugin_id := "p", condition := StageCondition.on_success } none [] = false := by
  decide

example : shouldExecuteStage (fun _ _ _ => false)
    { name := "s", plugin_id := "p", condition := StageCondition.always } none [] = true := by
  decide

/-- The outcome of the `try` block of one executed stage: either the
plugin's `run` returned a `PluginResult`, or some step inside the block
(`get_instance`, `validate`, `run`, a timeout) raised an exception with
the given message. -/
inductive StageOutcome where
  | ok (r : PluginResult)
  | exc (msg : String)
deriving Repr, DecidableEq

/-- Plugin behaviour as an oracle, indexed by the position of the stage
in the pipeline's stage list.  Quantifying over all oracles covers every
possible behaviour of the (external) plugin code. -/
abbrev PluginOracle := Nat → StageOutcome

/-- The wall clock as an oracle: the timestamp returned by the `i`-th
clock reading of the run. -/
abbrev Clock := Nat → Nat

/-- The executor's per-run accumulators (the local variables of
`PipelineExecutor.execute` just before the stage loop).  `tick` counts
clock readings; `risk_trace` is ghost instrumentation recording
`running_context["_risk_score"]` after each executed stage — it has no
counterpart in the source and never influences control flow. -/
structure ExecState where
  all_findings : List Finding := []
  all_artifacts : List Artifact := []
  all_events : List TraceEvent := []
  stages_executed : List String := []
  stages_skipped : List String := []
  stages_failed : List String := []
  running_context : PyDict := []
  last_result : Option PluginResult := none
  max_risk : Rat := 0
  tick : Nat := 0
  risk_trace : List Rat := []
deriving Repr, DecidableEq

/-- `aetherframe/core/pipeline.py` — `PipelineExecutionResult`, plus the
ghost `risk_trace` carried over from `ExecState`. -/
structure PipelineExecutionResult where
  job_id : Nat
  pipeline_id : String
  success : Bool
  stages_executed : List String
  stages_skipped : List String
  stages_failed : List String
  total_findings : List Finding
  total_artifacts : List Artifact
  total_events : List TraceEvent
  execution_time_ms : Nat
  error : Option String := none
  risk_score : Rat := 0
  risk_trace : List Rat := []
deriving Repr, DecidableEq

/-- The stamping loop `for f in result.findings: f.plugin_id = ...;
f.stage = ...` for one finding. -/
def stampFinding (stage : PipelineStage) (f : Finding) : Finding :=
  { f with plugin_id := some stage.plugin_id, stage := some stage.name }

/-- The stamping loop for one artifact. -/
def stampArtifact (stage : PipelineStage) (a : Artifact) : Artifact :=
  { a with plugin_id := some stage.plugin_id, stage := some stage.name }

/-- Python's binary `max` on numbers (spelled out so that it evaluates
by kernel reduction). -/
def ratMax (a b : Rat) : Rat := if a ≤ b then b else a

/-- The context-update block of the stage loop, verbatim:
`running_context.update(result.context_data)`, then, when
`result.risk_score` is truthy, `max_risk = max(max_risk,
result.risk_score)` and `running_context["_risk_score"] = max_risk`.
Returns the new `running_context` and the new `max_risk`. -/
def updateContextAfterStage (running_context : PyDict) (max_risk : Rat)
    (result : PluginResult) : PyDict × Rat :=
  let c := dictUpdate running_context result.context_data
  if ratOptTruthy result.risk_score then
    let m := ratMax max_risk ((result.risk_score).getD 0)
    (dictSet c "_risk_score" (PyVal.rat m), m)
  else
    (c, max_risk)

/-- The final `return PipelineExecutionResult(...)` of `execute` (also
reached by `break` on `skip_remaining`): `success` is
`len(stages_failed) == 0` and `risk_score` is `max_risk`. -/
def finalizeResult (clock : Clock) (job_id : Nat) (pipeline_id : String)
    (start_time : Nat) (st : ExecState) : PipelineExecutionResult :=
  { job_id := job_id
    pipeline_id := pipeline_id
    success := st.stages_failed.isEmpty
    stages_executed := st.stages_executed
    stages_skipped := st.stages_skipped
    stages_failed := st.stages_failed
    total_findings := st.all_findings
    total_artifacts := st.all_artifacts
    total_events := st.all_events
    execution_time_ms := clock st.tick - start_time
    error := none
    risk_score := st.max_risk
    risk_trace := st.risk_trace }

/-- The early `return PipelineExecutionResult(..., success=False, ...,
error=f"Stage {name} failed: {e}")` taken when a non-optional stage's
`try` block raises.  `st` is the state with the failure already
recorded (`stages_failed` appended, `stage_error` event emitted). -/
def errorResult (clock : Clock) (job_id : Nat) (pipeline_id : String)
    (start_time : Nat) (st : ExecState) (stageName msg : String) :
    PipelineExecutionResult :=
  { job_id := job_id
    pipeline_id := pipeline_id
    success := false
    stages_executed := st.stages_executed
    stages_skipped := st.stages_skipped
    stages_failed := st.stages_failed
    total_findings := st.all_findings
    total_artifacts := st.all_artifacts
    total_events := st.all_events
    execution_time_ms := clock st.tick - start_time
    error := some ("Stage " ++ stageName ++ " failed: " ++ msg)
    risk_score := st.max_risk
    risk_trace := st.risk_trace }

/-- The failure-recording block of the `except` branch: append the
stage to `stages_failed` and emit the `stage_error` event (one clock
reading for the event timestamp). -/
def excState (clock : Clock) (job_id : Nat) (stage : PipelineStage) (msg : String)
    (st : ExecState) : ExecState :=
  { st with
      stages_failed := st.stages_failed ++ [stage.name]
      all_events := st.all_events ++
        [{ job_id := job_id, ts := clock st.tick, source := EventSource.orchestrator
           event_type := EventType.stage_error
           payload := [("stage", PyVal.str stage.name), ("error", PyVal.str msg)] }]
      tick := st.tick + 1 }

/-- The success block of the stage loop: stamp findings and artifacts
with the stage's plugin id and name, extend the accumulators, append
the stage to `stages_executed`, run the context/risk update, set
`last_result` (the stamped result object) and emit the
`stage_complete` event.  `risk_trace` is the ghost record of
`running_context["_risk_score"]` after the stage. -/
def okState (clock : Clock) (job_id : Nat) (stage : PipelineStage)
    (result : PluginResult) (st : ExecState) : ExecState :=
  let fs := result.findings.map (stampFinding stage)
  let arts := result.artifacts.map (stampArtifact stage)
  let cm := updateContextAfterStage st.running_context st.max_risk result
  { st with
      all_findings := st.all_findings ++ fs
      all_artifacts := st.all_artifacts ++ arts
      all_events := (st.all_events ++ result.events) ++
        [{ job_id := job_id, ts := clock st.tick, source := EventSource.orchestrator
           event_type := EventType.stage_complete
           payload := [("stage", PyVal.str stage.name), ("plugin", PyVal.str stage.plugin_id),
                       ("findings", PyVal.rat fs.length), ("artifacts", PyVal.rat arts.length)] }]
      stages_executed := st.stages_executed ++ [stage.name]
      running_context := cm.1
      max_risk := cm.2
      last_result := some { result with findings := fs, artifacts := arts }
      tick := st.tick + 1
      risk_trace := st.risk_trace ++ [riskOf cm.1] }

/-- The `continue` branch for an unsatisfied condition: record the
stage as skipped. -/
def skipState (stage : PipelineStage) (st : ExecState) : ExecState :=
  { st with stages_skipped := st.stages_skipped ++ [stage.name] }

/-- The `for stage in pipeline.stages:` loop of
`PipelineExecutor.execute`, one source line at a time:

* condition not met → `skipState` (append to `stages_skipped`),
  `continue`;
* `try` block raises → `excState` (append to `stages_failed`, emit a
  `stage_error` event), and halt with an error result unless the stage
  is optional;
* `run` returns a result → `okState` (stamp, aggregate, update
  context/risk, emit `stage_complete`), and `break` out of the loop
  when `result.skip_remaining`. -/
def execLoop (evalExpr : CondEval) (outcome : PluginOracle) (clock : Clock)
    (job_id : Nat) (pipeline_id : String) (start_time : Nat) :
    List PipelineStage → Nat → ExecState → PipelineExecutionResult
  | [], _, st => finalizeResult clock job_id pipeline_id start_time st
  | stage :: rest, idx, st =>
    if shouldExecuteStage evalExpr stage st.last_result st.running_context then
      match outcome idx with
      | StageOutcome.exc msg =>
        if stage.optional then
          execLoop evalExpr outcome clock job_id pipeline_id start_time rest (idx + 1)
            (excState clock job_id stage msg st)
        else
          errorResult clock job_id pipeline_id start_time
            (excState clock job_id stage msg st) stage.name msg
      | StageOutcome.ok result =>
        if result.skip_remaining then
          finalizeResult clock job_id pipeline_id start_time
            (okState clock job_id stage result st)
        else
          execLoop evalExpr outcome clock job_id pipeline_id start_time rest (idx + 1)
            (okState clock job_id stage result st)
    else
      execLoop evalExpr outcome clock job_id pipeline_id start_time rest (idx + 1)
        (skipState stage st)

/-- One unfolding of the stage loop on a non-empty stage list. -/
theorem execLoop_cons (evalExpr : CondEval) (outcome : PluginOracle) (clock : Clock)
    (job_id : Nat) (pipeline_id : String) (start_time : Nat) (stage : PipelineStage)
    (rest : List PipelineStage) (idx : Nat) (st : ExecState) :
    execLoop evalExpr outcome clock job_id pipeline_id start_time (stage :: rest) idx st
      = if shouldExecuteStage evalExpr stage st.last_result st.running_context then
          match outcome idx with
          | StageOutcome.exc msg =>
            if stage.optional then
              execLoop evalExpr outcome clock job_id pipeline_id start_time rest (idx + 1)
                (excState clock job_id stage msg st)
            else
              errorResult clock job_id pipeline_id start_time
                (excState clock job_id stage msg st) stage.name msg
          | StageOutcome.ok result =>
            if result.skip_remaining then
              finalizeResult clock job_id pipeline_id start_time
                (okState clock job_id stage result st)
            else
              execLoop evalExpr outcome clock job_id pipeline_id start_time rest (idx + 1)
                (okState clock job_id stage result st)
        else
          execLoop evalExpr outcome clock job_id pipeline_id start_time rest (idx + 1)
            (skipState stage st) := by
  rfl

/-- The stage loop on an unsatisfied condition: skip and continue. -/
theorem execLoop_skip (evalExpr : CondEval) (outcome : PluginOracle) (clock : Clock)
    (job_id : Nat) (pipeline_id : String) (start_time : Nat) (stage : PipelineStage)
    (rest : List PipelineStage) (idx : Nat) (st : ExecState)
    (h : shouldExecuteStage evalExpr stage st.last_result st.running_context = false) :
    execLoop evalExpr outcome clock job_id pipeline_id start_time (stage :: rest) idx st
      = execLoop evalExpr outcome clock job_id pipeline_id start_time rest (idx + 1)
          (skipState stage st) := by
  rw [execLoop_cons, h]
  simp

/-- The stage loop when the stage executes and its `try` block raises. -/
theorem execLoop_exc (evalExpr : CondEval) (outcome : PluginOracle) (clock : Clock)
    (job_id : Nat) (pipeline_id : String) (start_time : Nat) (stage : PipelineStage)
    (rest : List PipelineStage) (idx : Nat) (st : ExecState) (msg : String)
    (hc : shouldExecuteStage evalExpr stage st.last_result st.running_context = true)
    (ho : outcome idx = StageOutcome.exc msg) :
    execLoop evalExpr outcome clock job_id pipeline_id start_time (stage :: rest) idx st
      = if stage.optional then
          execLoop evalExpr outcome clock job_id pipeline_id start_time rest (idx + 1)
            (excState clock job_id stage msg st)
        else
          errorResult clock job_id pipeline_id start_time
            (excState clock job_id stage msg st) stage.name msg := by
  rw [execLoop_cons, hc, ho]
  simp

/-- The stage loop when the stage executes and `run` returns a result. -/
theorem execLoop_ok (evalExpr : CondEval) (outcome : PluginOracle) (clock : Clock)
    (job_id : Nat) (pipeline_id : String) (start_time : Nat) (stage : PipelineStage)
    (rest : List PipelineStage) (idx : Nat) (st : ExecState) (result : PluginResult)
    (hc : shouldExecuteStage evalExpr stage st.last_result st.running_context = true)
    (ho : outcome idx = StageOutcome.ok result) :
    execLoop evalExpr outcome clock job_id pipeline_id start_time (stage :: rest) idx st
      = if result.skip_remaining then
          finalizeResult clock job_id pipeline_id start_time
            (okState clock job_id stage result st)
        else
          execLoop evalExpr outcome clock job_id pipeline_id start_time rest (idx + 1)
            (okState clock job_id stage result st) := by
  rw [execLoop_cons, hc, ho]
  simp

/-- `PipelineExecutor.execute(job, pipeline_id, base_ctx)` for a resolved
pipeline: read the start time, emit the pipeline-level `stage_start`
event (payload: pipeline id and the list of stage names), then run the
stage loop on an empty state. -/
def PipelineExecutor.execute (evalExpr : CondEval) (outcome : PluginOracle)
    (clock : Clock) (job_id : Nat) (pipeline : Pipeline) : PipelineExecutionResult :=
  let start_time := clock 0
  let ev0 : TraceEvent :=
    { job_id := job_id, ts := clock 1, source := EventSource.orchestrator
      event_type := EventType.stage_start
      payload := [("pipeline", PyVal.str pipeline.id),
                  ("stages", PyVal.strlist (pipeline.stages.map (fun s => s.name)))] }
  execLoop evalExpr outcome clock job_id pipeline.id start_time pipeline.stages 0
    { all_events := [ev0], tick := 2 }

/-- A canonical string encoding of one dictionary value, used to embed
`hash(frozenset(config.items()))` below. -/
def encodePyVal : PyVal → String
  | PyVal.str s => "s:" ++ s
  | PyVal.rat q => "r:" ++ reprStr q
  | PyVal.bool b => "b:" ++ reprStr b
  | PyVal.strlist xs => "l:" ++ String.intercalate "," xs
  | PyVal.pynone => "n"

/-- Insert a string into an already sorted list of strings. -/
def insertSorted (a : String) : List String → List String
  | [] => [a]
  | b :: bs => if a ≤ b then a :: b :: bs else b :: insertSorted a bs

/-- Sort a list of strings (insertion sort). -/
def sortStrings (l : List String) : List String :=
  l.foldr insertSorted []

/-- `hash(frozenset((config or {}).items()))` from
`PluginRegistry.get_instance`: a value determined by the *set* of config
items (order-independent, here via sorting the encoded items), so equal
configs always produce equal hashes. -/
def hashConfig (config : PyDict) : String :=
  String.intercalate ";"
    (sortStrings (config.map (fun p => p.1 ++ "=" ++ encodePyVal p.2)))

/-- `aetherframe/plugins/registry.py` — the mutable state of
`PluginRegistry`: discovered manifest ids, loaded plugin-class ids
(`_plugins`), and the instance cache `_instances` keyed by the
`f"{plugin_id}:{hash(...)}"` cache key.  A plugin *instance* is
identified by its construction number `nextInstance` (each call of the
plugin-class constructor yields a fresh one), which faithfully captures
Python object identity. -/
structure PluginRegistry where
  manifests : List String := []
  plugins : List String := []
  instances : List (String × Nat) := []
  nextInstance : Nat := 0
deriving Repr, DecidableEq

/-- The `cache_key = f"{plugin_id}:{hash(frozenset((config or {}).items()))}"`
line of `get_instance`. -/
def cacheKey (plugin_id : String) (config : PyDict) : String :=
  plugin_id ++ ":" ++ hashConfig config

/-- `PluginRegistry.get_instance(plugin_id, config)`: compute the cache
key; on a cache hit return the cached instance unchanged; on a miss,
`load` the class (from the `_plugins` cache or via the manifest — a
missing plugin raises, embedded as `none`), look up the manifest, and
construct and cache a fresh instance. -/
def PluginRegistry.get_instance (st : PluginRegistry) (plugin_id : String)
    (config : PyDict) : Option (PluginRegistry × Nat) :=
  match st.instances.find? (fun p => p.1 = cacheKey plugin_id config) with
  | some p => some (st, p.2)
  | none =>
    if (st.plugins.contains plugin_id || st.manifests.contains plugin_id)
        && st.manifests.contains plugin_id then
      some ({ st with
                plugins := if st.plugins.contains plugin_id then st.plugins
                           else st.plugins ++ [plugin_id]
                instances := st.instances ++ [(cacheKey plugin_id config, st.nextInstance)]
                nextInstance := st.nextInstance + 1 },
            st.nextInstance)
    else none

/-- `aetherframe/schemas/job.py` — `JobStatus` (the schema-side enum used
by the in-memory `Orchestrator`; it has `done` and `cancelled`). -/
inductive SchemaJobStatus where
  | pending
  | running
  | done
  | failed
  | cancelled
deriving Repr, DecidableEq

/-- An entry of the orchestrator's `_active_jobs` map (the fields
`cancel` reads and writes). -/
structure OrchJob where
  id : Nat
  status : SchemaJobStatus
deriving Repr, DecidableEq

/-- `Orchestrator.cancel(job_id)`: look the job up in `_active_jobs`;
if it is found *and its status is `running`*, set it to `cancelled` and
return `True`; in every other case (absent job, or any status other than
`running`, including `pending`) leave the map unchanged and return
`False`.  Returns the new `_active_jobs` map and the boolean result. -/
def Orchestrator.cancel (active_jobs : List OrchJob) (job_id : Nat) :
    List OrchJob × Bool :=
  match active_jobs.find? (fun j => j.id = job_id) with
  | some job =>
    if job.status = SchemaJobStatus.running then
      (active_jobs.map (fun j =>
         if j.id = job_id then { j with status := SchemaJobStatus.cancelled } else j),
       true)
    else
      (active_jobs, false)
  | none => (active_jobs, false)

/-- The three row kinds persisted after a pipeline run. -/
inductive RowKind where
  | finding
  | artifact
  | traceEvent
deriving Repr, DecidableEq

/-- Store-write behaviour as an oracle: whether persisting the `i`-th
row of a given kind succeeds or raises. -/
abbrev PersistOracle := RowKind → Nat → Bool

/-- `Orchestrator._persist_results(result)`: three loops — findings,
then artifacts, then trace events — each row wrapped in its own
`try/except` that logs the failure and continues with the next row.
The value is the list of rows successfully written, in write order
(rows identified by kind and position in the result's list; the
persistence callbacks are assumed installed). -/
def Orchestrator.persistResults (ok : PersistOracle)
    (nFindings nArtifacts nEvents : Nat) : List (RowKind × Nat) :=
  ((List.range nFindings).filter (ok RowKind.finding)).map (fun i => (RowKind.finding, i))
    ++ ((List.range nArtifacts).filter (ok RowKind.artifact)).map (fun i => (RowKind.artifact, i))
    ++ ((List.range nEvents).filter (ok RowKind.traceEvent)).map (fun i => (RowKind.traceEvent, i))

/-- `aetherframe/core/models.py` — the store-side `JobStatus` enum used
by the worker and the repository (note: it has `completed` but no
`cancelled` member). -/
inductive DbJobStatus where
  | pending
  | running
  | completed
  | failed
deriving Repr, DecidableEq

/-- A `jobs` table row as the worker task reads it. -/
structure DbJob where
  id : Nat
  status : DbJobStatus
  pipeline_id : Option String := none
deriving Repr, DecidableEq

/-- The externally visible effects of one invocation of the worker task
`process_job`: the `update_job_status` calls in order, the rows
successfully written in order, whether the pipeline executor ran, and
whether the task re-raised out of its `except` branch. -/
structure WorkerEffects where
  status_updates : List DbJobStatus
  persisted : List (RowKind × Nat)
  pipeline_executed : Bool
  raised : Bool
  pipeline_ref : String
deriving Repr, DecidableEq

/-- First index in `0..n-1` at which the oracle fails, if any (the point
where an unguarded persistence loop raises). -/
def firstFail (ok : Nat → Bool) (n : Nat) : Option Nat :=
  (List.range n).find? (fun i => !(ok i))

/-- The `pipeline_id = db_job.pipeline_id or "quicklook"` line of
`process_job` (Python `or`: `None` and the empty string fall back to
the default). -/
def pipelineRefOf (job : DbJob) : String :=
  match job.pipeline_id with
  | some s => if s = "" then "quicklook" else s
  | none => "quicklook"

/-- `aetherframe/core/tasks.py` — `process_job(job_id, target)` for a
job row that exists, given the pipeline result the executor returns and
the store-write oracle.  Faithful to the source:

* the fetched row's status is *never inspected* — the task immediately
  sets the job `running` and executes the pipeline, whatever state the
  row was in;
* the pipeline id is `db_job.pipeline_id or "quicklook"`;
* findings, artifacts, then trace events are written in bare `for`
  loops with *no* per-row exception handling, so the first failing row
  aborts the remaining writes and control jumps to the `except` branch,
  which sets the job `failed` and re-raises;
* only when every row is written is the job set to `completed` (result
  success) or `failed` (result failure). -/
def process_job (ok : PersistOracle) (job : DbJob)
    (result : PipelineExecutionResult) : WorkerEffects :=
  let pidRef := pipelineRefOf job
  let nF := result.total_findings.length
  let nA := result.total_artifacts.length
  let nE := result.total_events.length
  let allF := (List.range nF).map (fun i => (RowKind.finding, i))
  let allA := (List.range nA).map (fun i => (RowKind.artifact, i))
  let allE := (List.range nE).map (fun i => (RowKind.traceEvent, i))
  match firstFail (ok RowKind.finding) nF with
  | some i =>
      { status_updates := [DbJobStatus.running, DbJobStatus.failed]
        persisted := (List.range i).map (fun k => (RowKind.finding, k))
        pipeline_executed := true
        raised := true
        pipeline_ref := pidRef }
  | none =>
    match firstFail (ok RowKind.artifact) nA with
    | some i =>
        { status_updates := [DbJobStatus.running, DbJobStatus.failed]
          persisted := allF ++ (List.range i).map (fun k => (RowKind.artifact, k))
          pipeline_executed := true
          raised := true
          pipeline_ref := pidRef }
    | none =>
      match firstFail (ok RowKind.traceEvent) nE with
      | some i =>
          { status_updates := [DbJobStatus.running, DbJobStatus.failed]
            persisted := allF ++ allA ++ (List.range i).map (fun k => (RowKind.traceEvent, k))
            pipeline_executed := true
            raised := true
            pipeline_ref := pidRef }
      | none =>
          { status_updates := [DbJobStatus.running,
              if result.success then DbJobStatus.completed else DbJobStatus.failed]
            persisted := allF ++ allA ++ allE
            pipeline_executed := true
            raised := false
            pipeline_ref := pidRef }

/-- A `trace_events` table row. -/
structure DbTraceEvent where
  job_id : Nat
  ts : Nat
  source : EventSource
  event_type : EventType
  symbol : Option String
  address : Option String
  thread_id : Option Nat
  sequence : Int
  payload : PyDict
deriving Repr, DecidableEq

/-- `aetherframe/core/repository.py` — `create_trace_event`: field-by-
field copy of the schema event into a table row; in particular the
`sequence` value is persisted exactly as recorded. -/
def repository.create_trace_event (e : TraceEvent) : DbTraceEvent :=
  { job_id := e.job_id
    ts := e.ts
    source := e.source
    event_type := e.event_type
    symbol := e.symbol
    address := e.address
    thread_id := e.thread_id
    sequence := e.sequence
    payload := e.payload }

/-! ## Helper lemmas about the dictionary embedding -/

theorem dictGet_dictSet_self (d : PyDict) (k : String) (v : PyVal) :
    dictGet (dictSet d k v) k = some v := by
  induction d with
  | nil => simp [dictGet, dictSet]
  | cons p rest ih =>
    by_cases h : p.1 = k <;> simp [dictGet, dictSet, h, ih]

theorem dictGet_dictSet_ne (d : PyDict) (k kp : String) (v : PyVal) (hne : kp ≠ k) :
    dictGet (dictSet d kp v) k = dictGet d k := by
  induction d with
  | nil => simp [dictGet, dictSet, hne]
  | cons p rest ih =>
    by_cases h : p.1 = kp
    · have h2 : p.1 ≠ k := fun hk => hne (h.symm.trans hk)
      simp [dictGet, dictSet, h, h2, hne]
    · by_cases h2 : p.1 = k <;> simp [dictGet, dictSet, h, h2, Ne.symm hne, ih]

theorem dictGet_dictUpdate_of_not_mem (d other : PyDict) (k : String)
    (h : dictGet other k = none) : dictGet (dictUpdate d other) k = dictGet d k := by
  induction other generalizing d with
  | nil => rfl
  | cons p rest ih =>
    have hpk : p.1 ≠ k := by
      intro hk
      simp [dictGet, hk] at h
    have hrest : dictGet rest k = none := by
      simpa [dictGet, hpk] using h
    show dictGet (dictUpdate (dictSet d p.1 p.2) rest) k = dictGet d k
    rw [ih (dictSet d p.1 p.2) hrest, dictGet_dictSet_ne _ _ _ _ hpk]

/-! ## Shared concrete material for counterexamples and witnesses -/

/-- A condition-expression oracle that evaluates nothing (no concrete
scenario below has a non-empty `condition_expr`). -/
def noEval : CondEval := fun _ _ _ => false

/-- A wall clock stuck at one instant — two consecutive readings of a
real microsecond-resolution clock can coincide, and this is the clock
behaviour the timestamp-ordering counterexample exercises. -/
def zeroClock : Clock := fun _ => 0

/-! ## C10 — `conditional` stages with an unset `condition_expr` -/

/-- **C10.** A stage whose condition is `conditional` but whose
`condition_expr` is unset (`None` or the empty string) is skipped when
evaluated with no previous stage result, and is executed unconditionally
as soon as any previous result exists (whatever its `success`, findings,
or the risk score): the condition check falls through to `return True`. -/
theorem C10_theorem (ev : CondEval) (nm pid : String) (cfg : PyDict) (t : Nat)
    (opt : Bool) (ctx : PyDict) (r : PluginResult) :
    (shouldExecuteStage ev
        { name := nm, plugin_id := pid, config := cfg,
          condition := StageCondition.conditional, condition_expr := none,
          timeout_seconds := t, optional := opt } none ctx = false
      ∧ shouldExecuteStage ev
          { name := nm, plugin_id := pid, config := cfg,
            condition := StageCondition.conditional, condition_expr := some "",
            timeout_seconds := t, optional := opt } none ctx = false)
    ∧ (shouldExecuteStage ev
        { name := nm, plugin_id := pid, config := cfg,
          condition := StageCondition.conditional, condition_expr := none,
          timeout_seconds := t, optional := opt } (some r) ctx = true
      ∧ shouldExecuteStage ev
          { name := nm, plugin_id := pid, config := cfg,
            condition := StageCondition.conditional, condition_expr := some "",
            timeout_seconds := t, optional := opt } (some r) ctx = true) := by
  refine ⟨⟨?_, ?_⟩, ?_, ?_⟩ <;> simp [shouldExecuteStage, strOptTruthy]

/-! ## C5 — a first stage with condition `on_success` -/

/-- A pipeline whose only stage carries the (default) `on_success`
condition, so that it is evaluated with no previous stage result. -/
def firstOnSuccessStage : PipelineStage :=
  { name := "static", plugin_id := "static_analyzer",
    condition := StageCondition.on_success }

/-- The single-stage pipeline around `firstOnSuccessStage`. -/
def firstOnSuccessPipeline : Pipeline :=
  { id := "p-first", name := "FirstOnSuccess", stages := [firstOnSuccessStage] }

/-- **C5 counterexample.** The claim says an `on_success` stage that is
evaluated first (no previous result) is executed.  On the code it is
not: `_should_execute_stage` answers `False`, and a run of a pipeline
whose first stage has condition `on_success` puts that stage in
`stages_skipped` and executes nothing — even though its plugin would
have succeeded. -/
theorem C5_counterexample :
    shouldExecuteStage noEval firstOnSuccessStage none [] = false
    ∧ (PipelineExecutor.execute noEval (fun _ => StageOutcome.ok {}) zeroClock 1
        firstOnSuccessPipeline).stages_executed = []
    ∧ (PipelineExecutor.execute noEval (fun _ => StageOutcome.ok {}) zeroClock 1
        firstOnSuccessPipeline).stages_skipped = ["static"] := by
  refine ⟨rfl, rfl, rfl⟩

/-- **C5 (amended).** A stage with condition `on_success` evaluated as
the first stage of the run (no previous stage result) is *skipped*, not
executed: with no previous result `_should_execute_stage` treats every
condition except `always` as unsatisfied, and a run of a pipeline whose
sole stage is such a stage records it in `stages_skipped` and executes
no stage, for every plugin behaviour. -/
theorem C5_theorem (ev : CondEval) (outcome : PluginOracle) (clock : Clock)
    (job_id : Nat) (nm pid : String) (cfg : PyDict) (expr : Option String)
    (t : Nat) (opt : Bool) (ctx : PyDict) (plid plnm pldesc : String) :
    shouldExecuteStage ev
      { name := nm, plugin_id := pid, config := cfg,
        condition := StageCondition.on_success, condition_expr := expr,
        timeout_seconds := t, optional := opt } none ctx = false
    ∧ (PipelineExecutor.execute ev outcome clock job_id
        { id := plid, name := plnm, description := pldesc,
          stages := [{ name := nm, plugin_id := pid, config := cfg,
                       condition := StageCondition.on_success,
                       condition_expr := expr, timeout_seconds := t,
                       optional := opt }] }).stages_executed = []
    ∧ (PipelineExecutor.execute ev outcome clock job_id
        { id := plid, name := plnm, description := pldesc,
          stages := [{ name := nm, plugin_id := pid, config := cfg,
                       condition := StageCondition.on_success,
                       condition_expr := expr, timeout_seconds := t,
                       optional := opt }] }).stages_skipped = [nm] := by
  refine ⟨?_, ?_, ?_⟩ <;>
    simp [shouldExecuteStage, PipelineExecutor.execute, execLoop, finalizeResult,
      skipState]

/-! ## C4 — cancelling a job -/

/-- **C4 counterexample.** The claim says a *pending* job can be
cancelled.  On the code it cannot: `Orchestrator.cancel` on a pending
job leaves the active-jobs map unchanged and reports failure. -/
theorem C4_counterexample :
    Orchestrator.cancel [{ id := 1, status := SchemaJobStatus.pending }] 1
      = ([{ id := 1, status := SchemaJobStatus.pending }], false) := by
  rfl

/-- **C4 (amended).** `Orchestrator.cancel` transitions the job to
`cancelled` and reports success exactly when the job is active with
status `running`; for a job in any other status — *including `pending`*
— the job is left unchanged and failure is reported. -/
theorem C4_theorem (i : Nat) (s : SchemaJobStatus) :
    Orchestrator.cancel [{ id := i, status := s }] i
      = if s = SchemaJobStatus.running
          then ([{ id := i, status := SchemaJobStatus.cancelled }], true)
          else ([{ id := i, status := s }], false) := by
  cases s <;> simp [Orchestrator.cancel, List.find?]

/-! ## C9 — instance caching in the plugin registry -/

/-- **C9.** `get_instance` caches instances by the pair of plugin id and
config hash: whenever a call `get_instance(plugin_id, config)` returns an
instance, calling it again on the resulting registry with the same plugin
id and an equal config returns the *same* instance and leaves the
registry unchanged — the second call constructs nothing. -/
theorem C9_theorem (st : PluginRegistry) (plugin_id : String) (config : PyDict)
    (st1 : PluginRegistry) (inst : Nat)
    (h : st.get_instance plugin_id config = some (st1, inst)) :
    st1.get_instance plugin_id config = some (st1, inst) := by
  unfold PluginRegistry.get_instance at h
  split at h
  · next p hfind =>
    rw [Option.some_inj, Prod.mk.injEq] at h
    obtain ⟨rfl, rfl⟩ := h
    unfold PluginRegistry.get_instance
    rw [hfind]
  · next hfind =>
    split at h
    · next hc =>
      rw [Option.some_inj, Prod.mk.injEq] at h
      obtain ⟨rfl, rfl⟩ := h
      unfold PluginRegistry.get_instance
      rw [show ({ st with
                    plugins := if st.plugins.contains plugin_id then st.plugins
                               else st.plugins ++ [plugin_id]
                    instances := st.instances ++
                      [(cacheKey plugin_id config, st.nextInstance)]
                    nextInstance := st.nextInstance + 1 } : PluginRegistry).instances
              = st.instances ++
                  [(cacheKey plugin_id config, st.nextInstance)] from rfl,
          List.find?_append, hfind]
      simp
    · exact absurd h (by simp)

/-- A registry holding just the discovered manifest of the `umbriel`
plugin, no loaded classes and an empty instance cache. -/
def regWithUmbriel : PluginRegistry := { manifests := ["umbriel"] }

/-- `regWithUmbriel` after one `get_instance("umbriel", {})` call: the
class is loaded, instance 0 is cached under the key `"umbriel:"`. -/
def regAfterFirstCall : PluginRegistry :=
  { manifests := ["umbriel"], plugins := ["umbriel"],
    instances := [(cacheKey "umbriel" [], 0)], nextInstance := 1 }

/-- **C9 witness.** A concrete first call constructs and returns
instance 0; the theorem applied to it shows the second identical call
returns instance 0 again from the unchanged registry. -/
theorem C9_witness :
    regAfterFirstCall.get_instance "umbriel" [] = some (regAfterFirstCall, 0) :=
  C9_theorem regWithUmbriel "umbriel" [] regAfterFirstCall 0 (by decide)

/-! ## C3 — redelivery of an already-terminal job -/

/-- A store-write oracle under which every row write succeeds. -/
def allWritesOk : PersistOracle := fun _ _ => true

/-- A successful pipeline result with no rows to persist. -/
def emptyOkResult : PipelineExecutionResult :=
  { job_id := 1, pipeline_id := "quicklook", success := true,
    stages_executed := ["gate"], stages_skipped := [], stages_failed := [],
    total_findings := [], total_artifacts := [], total_events := [],
    execution_time_ms := 5 }

/-- A job row that is already in the terminal status `completed` when
the task is (re)delivered. -/
def completedJob : DbJob :=
  { id := 1, status := DbJobStatus.completed, pipeline_id := some "quicklook" }

/-- **C3.** The claim (and the spec's "the worker MUST detect an
already-terminal job and no-op") does not hold on the code: `process_job`
never inspects the fetched row's status.  Evaluated on a job whose row is
already `completed`, the task still executes the pipeline and still
rewrites the row (`running`, then the fresh terminal status) — and, in
general, its behaviour is *identical* for every starting status, so no
terminal status is ever detected. -/
theorem C3_theorem :
    ((process_job allWritesOk completedJob emptyOkResult).pipeline_executed = true
      ∧ (process_job allWritesOk completedJob emptyOkResult).status_updates
          = [DbJobStatus.running, DbJobStatus.completed])
    ∧ ∀ (ok : PersistOracle) (j : DbJob) (s : DbJobStatus)
        (r : PipelineExecutionResult),
        process_job ok { j with status := s } r = process_job ok j r := by
  exact ⟨⟨rfl, rfl⟩, fun ok j s r => rfl⟩

/-! ## C6 — persistence order and per-row failure isolation -/

/-- The rows of a pipeline result in the order the worker writes them:
all findings, then all artifacts, then all trace events. -/
def allRows (r : PipelineExecutionResult) : List (RowKind × Nat) :=
  (List.range r.total_findings.length).map (fun i => (RowKind.finding, i))
    ++ (List.range r.total_artifacts.length).map (fun i => (RowKind.artifact, i))
    ++ (List.range r.total_events.length).map (fun i => (RowKind.traceEvent, i))

/-- How many rows of each kind a result has. -/
def kindBound (k : RowKind) (nFindings nArtifacts nEvents : Nat) : Nat :=
  match k with
  | RowKind.finding => nFindings
  | RowKind.artifact => nArtifacts
  | RowKind.traceEvent => nEvents

/-- A result with two findings, one artifact and one trace event. -/
def c6Result : PipelineExecutionResult :=
  { job_id := 2, pipeline_id := "quicklook", success := true,
    stages_executed := ["gate"], stages_skipped := [], stages_failed := [],
    total_findings := [{ body := 10 }, { body := 11 }],
    total_artifacts := [{ body := 20 }],
    total_events := [{ job_id := 2, ts := 0, source := EventSource.orchestrator,
                       event_type := EventType.stage_start }],
    execution_time_ms := 7 }

/-- A running job row the worker is processing. -/
def c6Job : DbJob :=
  { id := 2, status := DbJobStatus.running, pipeline_id := some "quicklook" }

/-- A store-write oracle under which exactly the second finding row
fails. -/
def failSecondFinding : PersistOracle :=
  fun k i => !(k == RowKind.finding && i == 1)

/-- **C6 counterexample.** In the worker task a single failing row is
*not* isolated: with the second of two finding rows failing, the first
finding is the only row written — the remaining finding, the artifact
and the trace event are never persisted — and the job, whose pipeline
result was successful, is marked `failed` (the terminal status is only
written after persistence, so nothing was "already finalised"). -/
theorem C6_counterexample :
    process_job failSecondFinding c6Job c6Result
      = { status_updates := [DbJobStatus.running, DbJobStatus.failed]
          persisted := [(RowKind.finding, 0)]
          pipeline_executed := true
          raised := true
          pipeline_ref := "quicklook" } := by
  rfl

/-- **C6 (amended).** Findings, artifacts and trace events are persisted
in that order.  When every row write succeeds, the worker writes all
rows in order and only then finalises the job (`completed` iff the
result succeeded).  Per-row failure isolation holds only in the
orchestrator's `_persist_results` helper, where a row is written exactly
when its own write succeeds, independent of the other rows' failures.
In the worker task, by contrast, a write failure always leaves the job
`failed`: its second status write is `failed` whenever it raised. -/
theorem C6_theorem (job : DbJob) (r : PipelineExecutionResult)
    (wok : PersistOracle) (pok : PersistOracle) (nF nA nE : Nat)
    (k : RowKind) (i : Nat) :
    process_job allWritesOk job r
      = { status_updates := [DbJobStatus.running,
            if r.success then DbJobStatus.completed else DbJobStatus.failed]
          persisted := allRows r
          pipeline_executed := true
          raised := false
          pipeline_ref := pipelineRefOf job }
    ∧ ((k, i) ∈ Orchestrator.persistResults pok nF nA nE
        ↔ (i < kindBound k nF nA nE ∧ pok k i = true))
    ∧ ((process_job wok job r).status_updates
        = [DbJobStatus.running,
           if (process_job wok job r).raised then DbJobStatus.failed
           else if r.success then DbJobStatus.completed else DbJobStatus.failed]) := by
  refine ⟨?_, ?_, ?_⟩
  · have hnone : ∀ (kk : RowKind) (n : Nat), firstFail (allWritesOk kk) n = none := by
      intro kk n
      simp [firstFail, allWritesOk, List.find?_eq_none]
    simp [process_job, hnone, allRows]
  · cases k <;>
      simp [Orchestrator.persistResults, kindBound, List.mem_append, List.mem_map,
        List.mem_filter, List.mem_range]
  · cases h1 : firstFail (wok RowKind.finding) r.total_findings.length with
    | some i1 => simp [process_job, h1]
    | none =>
      cases h2 : firstFail (wok RowKind.artifact) r.total_artifacts.length with
      | some i2 => simp [process_job, h1, h2]
      | none =>
        cases h3 : firstFail (wok RowKind.traceEvent) r.total_events.length with
        | some i3 => simp [process_job, h1, h2, h3]
        | none => simp [process_job, h1, h2, h3]

/-! ## C1 — a `PluginResult` with `success=false` is not a stage failure -/

/-- A single non-optional `always` stage. -/
def failFlagStage : PipelineStage :=
  { name := "s1", plugin_id := "p1", condition := StageCondition.always }

/-- The single-stage pipeline around `failFlagStage`. -/
def failFlagPipeline : Pipeline :=
  { id := "ff", name := "FF", stages := [failFlagStage] }

/-- A plugin run that returns normally with `success=false` (the
contract's "ordinary analysis failure": no exception is thrown). -/
def failFlagOutcome : PluginOracle :=
  fun _ => StageOutcome.ok { success := false, error := some "analysis failed" }

/-- **C1 counterexample.** The claim says a returned
`PluginResult(success=false)` is recorded as a stage failure (the stage
in `stages_failed`, not `stages_executed`) and, the stage being
non-optional, the pipeline halts with an error result.  On the code the
opposite happens: the stage lands in `stages_executed`, `stages_failed`
stays empty, the run ends without error and the overall result is even
`success=true` — only *exceptions* reach the failure path. -/
theorem C1_counterexample :
    (PipelineExecutor.execute noEval failFlagOutcome zeroClock 4
        failFlagPipeline).stages_executed = ["s1"]
    ∧ (PipelineExecutor.execute noEval failFlagOutcome zeroClock 4
        failFlagPipeline).stages_failed = []
    ∧ (PipelineExecutor.execute noEval failFlagOutcome zeroClock 4
        failFlagPipeline).success = true
    ∧ (PipelineExecutor.execute noEval failFlagOutcome zeroClock 4
        failFlagPipeline).error = none := by
  exact ⟨rfl, rfl, rfl, rfl⟩

/-- A defaulted successful plugin result as a stage outcome (used as
the second stage's behaviour in the amended C1 statement). -/
def StageOutcomeOk2 : StageOutcome := StageOutcome.ok {}

/-- **C1 (amended).** Only an exception raised inside a stage's `try`
block is recorded as a stage failure.  (i) A stage whose plugin returns
a `PluginResult` with `success=false` — whatever its findings,
artifacts, events, error, risk score or context data — is appended to
`stages_executed`, not `stages_failed`, and the pipeline continues: a
following `on_failure` stage runs, and the run ends without error.
(ii) A thrown exception in a non-optional stage appends the stage to
`stages_failed` (not `stages_executed`) and halts the pipeline with
`success=false` and the error string `"Stage <name> failed: <msg>"`. -/
theorem C1_theorem (ev : CondEval) (clock : Clock) (job_id : Nat)
    (n1 p1 n2 p2 plid plnm : String) (cfg1 cfg2 : PyDict) (t2 : Nat) (opt2 : Bool)
    (fs : List Finding) (arts : List Artifact) (evs : List TraceEvent)
    (err : Option String) (rs : Option Rat) (cd : PyDict) (msg : String) :
    ((PipelineExecutor.execute ev
        (fun i => if i = 0
          then StageOutcome.ok
            { findings := fs, artifacts := arts, events := evs, success := false,
              error := err, skip_remaining := false, risk_score := rs,
              context_data := cd }
          else StageOutcomeOk2) clock job_id
        { id := plid, name := plnm,
          stages := [{ name := n1, plugin_id := p1, config := cfg1,
                       condition := StageCondition.always },
                     { name := n2, plugin_id := p2, config := cfg2,
                       condition := StageCondition.on_failure,
                       timeout_seconds := t2, optional := opt2 }] }).stages_executed
        = [n1, n2]
      ∧ (PipelineExecutor.execute ev
        (fun i => if i = 0
          then StageOutcome.ok
            { findings := fs, artifacts := arts, events := evs, success := false,
              error := err, skip_remaining := false, risk_score := rs,
              context_data := cd }
          else StageOutcomeOk2) clock job_id
        { id := plid, name := plnm,
          stages := [{ name := n1, plugin_id := p1, config := cfg1,
                       condition := StageCondition.always },
                     { name := n2, plugin_id := p2, config := cfg2,
                       condition := StageCondition.on_failure,
                       timeout_seconds := t2, optional := opt2 }] }).stages_failed
        = []
      ∧ (PipelineExecutor.execute ev
        (fun i => if i = 0
          then StageOutcome.ok
            { findings := fs, artifacts := arts, events := evs, success := false,
              error := err, skip_remaining := false, risk_score := rs,
              context_data := cd }
          else StageOutcomeOk2) clock job_id
        { id := plid, name := plnm,
          stages := [{ name := n1, plugin_id := p1, config := cfg1,
                       condition := StageCondition.always },
                     { name := n2, plugin_id := p2, config := cfg2,
                       condition := StageCondition.on_failure,
                       timeout_seconds := t2, optional := opt2 }] }).error = none)
    ∧ ((PipelineExecutor.execute ev (fun _ => StageOutcome.exc msg) clock job_id
          { id := plid, name := plnm,
            stages := [{ name := n1, plugin_id := p1, config := cfg1,
                         condition := StageCondition.always }] }).stages_failed
        = [n1]
      ∧ (PipelineExecutor.execute ev (fun _ => StageOutcome.exc msg) clock job_id
          { id := plid, name := plnm,
            stages := [{ name := n1, plugin_id := p1, config := cfg1,
                         condition := StageCondition.always }] }).stages_executed
        = []
      ∧ (PipelineExecutor.execute ev (fun _ => StageOutcome.exc msg) clock job_id
          { id := plid, name := plnm,
            stages := [{ name := n1, plugin_id := p1, config := cfg1,
                         condition := StageCondition.always }] }).success = false
      ∧ (PipelineExecutor.execute ev (fun _ => StageOutcome.exc msg) clock job_id
          { id := plid, name := plnm,
            stages := [{ name := n1, plugin_id := p1, config := cfg1,
                         condition := StageCondition.always }] }).error
        = some ("Stage " ++ n1 ++ " failed: " ++ msg)) := by
  refine ⟨⟨?_, ?_, ?_⟩, ?_, ?_, ?_, ?_⟩ <;>
    simp [PipelineExecutor.execute, execLoop, shouldExecuteStage, finalizeResult,
      errorResult, StageOutcomeOk2, excState, okState, skipState]

/-! ## C2 — the success flag versus failed stages -/

/-- In every run of the stage loop, the returned `success` flag equals
the emptiness of the returned `stages_failed` list (the source computes
`success=len(stages_failed)==0` on normal return and returns
`success=False` with a freshly non-empty `stages_failed` on the halting
path). -/
theorem execLoop_success_eq (ev : CondEval) (outcome : PluginOracle) (clock : Clock)
    (job_id : Nat) (pid : String) (start_time : Nat) :
    ∀ (stages : List PipelineStage) (idx : Nat) (st : ExecState),
      (execLoop ev outcome clock job_id pid start_time stages idx st).success
        = (execLoop ev outcome clock job_id pid start_time stages idx st).stages_failed.isEmpty := by
  intro stages
  induction stages with
  | nil => intro idx st; rfl
  | cons stage rest ih =>
    intro idx st
    by_cases hcond : shouldExecuteStage ev stage st.last_result st.running_context = true
    · cases ho : outcome idx with
      | exc msg =>
        rw [execLoop_exc ev outcome clock job_id pid start_time stage rest idx st msg
          hcond ho]
        by_cases hopt : stage.optional = true
        · rw [if_pos hopt]; exact ih _ _
        · rw [if_neg hopt]; simp [errorResult, excState]
      | ok result =>
        rw [execLoop_ok ev outcome clock job_id pid start_time stage rest idx st result
          hcond ho]
        by_cases hskip : result.skip_remaining = true
        · rw [if_pos hskip]; rfl
        · rw [if_neg hskip]; exact ih _ _
    · rw [execLoop_skip ev outcome clock job_id pid start_time stage rest idx st
        (by simpa using hcond)]
      exact ih _ _

/-- Pipeline `[a (always), b (always, optional), c (always)]`. -/
def abcPipeline : Pipeline :=
  { id := "abc", name := "ABC",
    stages := [
      { name := "a", plugin_id := "pa", condition := StageCondition.always },
      { name := "b", plugin_id := "pb", condition := StageCondition.always,
        optional := true },
      { name := "c", plugin_id := "pc", condition := StageCondition.always }] }

/-- Plugin behaviour in which only the optional second stage throws. -/
def abcOutcome : PluginOracle :=
  fun i => if i = 1 then StageOutcome.exc "boom" else StageOutcome.ok {}

/-- **C2 counterexample.** A run in which only the *optional* stage `b`
failed: the pipeline continues (`a` and `c` execute), but the overall
`success` flag is `false`, while the claim requires `success=true` when
no non-optional stage failed. -/
theorem C2_counterexample :
    (PipelineExecutor.execute noEval abcOutcome zeroClock 6 abcPipeline).stages_failed
        = ["b"]
    ∧ (PipelineExecutor.execute noEval abcOutcome zeroClock 6 abcPipeline).stages_executed
        = ["a", "c"]
    ∧ (PipelineExecutor.execute noEval abcOutcome zeroClock 6 abcPipeline).success
        = false := by
  exact ⟨rfl, rfl, rfl⟩

/-- **C2 (amended).** The result's `success` flag is true iff
`stages_failed` is empty — i.e. iff *no* stage failed, optional or not.
(A run in which only optional stages failed therefore has
`success=false`, as the counterexample shows concretely.) -/
theorem C2_theorem (ev : CondEval) (outcome : PluginOracle) (clock : Clock)
    (job_id : Nat) (pipeline : Pipeline) :
    (PipelineExecutor.execute ev outcome clock job_id pipeline).success
      = (PipelineExecutor.execute ev outcome clock job_id pipeline).stages_failed.isEmpty := by
  unfold PipelineExecutor.execute
  exact execLoop_success_eq ev outcome clock job_id pipeline.id (clock 0)
    pipeline.stages 0 _

/-! ## C7 — trace-event sequence numbers -/

/-- Restrict a stage outcome to one whose returned result carries no
events of its own, so that a run's `total_events` are exactly the events
the executor itself creates. -/
def stripEvents : StageOutcome → StageOutcome
  | StageOutcome.ok r => StageOutcome.ok { r with events := [] }
  | StageOutcome.exc m => StageOutcome.exc m

/-- Appending preserves "every event has sequence 0". -/
theorem seqZero_append (l1 l2 : List TraceEvent)
    (h1 : ∀ e ∈ l1, e.sequence = 0) (h2 : ∀ e ∈ l2, e.sequence = 0) :
    ∀ e ∈ l1 ++ l2, e.sequence = 0 := by
  intro e he
  rcases List.mem_append.mp he with h | h
  · exact h1 e h
  · exact h2 e h

/-- Every event the stage loop itself creates keeps the schema default
`sequence = 0`: if all accumulated events have sequence 0 and the
plugins return no events of their own, every event of the final result
has sequence 0. -/
theorem execLoop_stripped_sequence (ev : CondEval) (outcome : PluginOracle)
    (clock : Clock) (job_id : Nat) (pid : String) (start_time : Nat) :
    ∀ (stages : List PipelineStage) (idx : Nat) (st : ExecState),
      (∀ e ∈ st.all_events, e.sequence = 0) →
      ∀ e ∈ (execLoop ev (fun i => stripEvents (outcome i)) clock job_id pid
          start_time stages idx st).total_events, e.sequence = 0 := by
  intro stages
  induction stages with
  | nil => intro idx st hst; exact hst
  | cons stage rest ih =>
    intro idx st hst
    by_cases hcond : shouldExecuteStage ev stage st.last_result st.running_context = true
    · cases ho : outcome idx with
      | exc msg =>
        have ho2 : (fun i => stripEvents (outcome i)) idx = StageOutcome.exc msg := by
          simp [ho, stripEvents]
        rw [execLoop_exc ev _ clock job_id pid start_time stage rest idx st msg hcond ho2]
        have hst2 : ∀ e ∈ (excState clock job_id stage msg st).all_events,
            e.sequence = 0 := by
          refine seqZero_append _ _ hst ?_
          intro e he
          rw [List.mem_singleton.mp he]
        by_cases hopt : stage.optional = true
        · rw [if_pos hopt]
          exact ih _ _ hst2
        · rw [if_neg hopt]
          exact hst2
      | ok r =>
        have ho2 : (fun i => stripEvents (outcome i)) idx
            = StageOutcome.ok { r with events := [] } := by
          simp [ho, stripEvents]
        rw [execLoop_ok ev _ clock job_id pid start_time stage rest idx st
          { r with events := [] } hcond ho2]
        have hst2 : ∀ e ∈ (okState clock job_id stage { r with events := [] } st).all_events,
            e.sequence = 0 := by
          refine seqZero_append _ _ (seqZero_append _ _ hst ?_) ?_
          · intro e he
            exact absurd he (List.not_mem_nil e)
          · intro e he
            rw [List.mem_singleton.mp he]
        by_cases hskip : ({ r with events := [] } : PluginResult).skip_remaining = true
        · rw [if_pos hskip]
          exact hst2
        · rw [if_neg hskip]
          exact ih _ _ hst2
    · rw [execLoop_skip ev _ clock job_id pid start_time stage rest idx st
        (by simpa using hcond)]
      exact ih _ _ hst

/-- Pipeline with two unconditional stages. -/
def twoStagePipeline : Pipeline :=
  { id := "two", name := "Two",
    stages := [
      { name := "u1", plugin_id := "q1", condition := StageCondition.always },
      { name := "u2", plugin_id := "q2", condition := StageCondition.always }] }

/-- Plugin behaviour that always returns the defaulted successful
result. -/
def okOutcome : PluginOracle := fun _ => StageOutcome.ok {}

/-- **C7 counterexample.** A run that records three distinct trace
events (the pipeline `stage_start` and two `stage_complete`s) under a
clock whose readings coincide: every event carries `(ts, sequence) =
(0, 0)`, so the sequence values are not monotonically increasing — they
are never assigned at all — and the pair `(ts, sequence)` does not
totally order the job's (pairwise distinct) events. -/
theorem C7_counterexample :
    ((PipelineExecutor.execute noEval okOutcome zeroClock 7
        twoStagePipeline).total_events.map (fun e => (e.ts, e.sequence)))
        = [(0, 0), (0, 0), (0, 0)]
    ∧ (PipelineExecutor.execute noEval okOutcome zeroClock 7
        twoStagePipeline).total_events.Nodup := by
  exact ⟨rfl, by decide⟩

/-- **C7 (amended).** The executor assigns no sequence numbers: every
trace event it creates itself carries the schema default `sequence = 0`
(shown for all runs whose plugins return no events of their own, so
that `total_events` is exactly the executor's events), and
`repository.create_trace_event` persists the recorded `sequence`
unchanged.  Events of a job are therefore ordered only by their
position in the recorded list, not by a per-job monotone `sequence`. -/
theorem C7_theorem (ev : CondEval) (outcome : PluginOracle) (clock : Clock)
    (job_id : Nat) (pipeline : Pipeline) :
    (∀ e ∈ (PipelineExecutor.execute ev (fun i => stripEvents (outcome i)) clock
        job_id pipeline).total_events, e.sequence = 0)
    ∧ (∀ e : TraceEvent, (repository.create_trace_event e).sequence = e.sequence) := by
  constructor
  · unfold PipelineExecutor.execute
    apply execLoop_stripped_sequence
    intro e he
    rw [List.mem_singleton.mp he]
  · intro e
    rfl

/-- **C7 witness.** The pipeline-start event of a concrete run, shown to
carry sequence 0 by the amended theorem. -/
theorem C7_witness :
    ({ job_id := 7, ts := 0, source := EventSource.orchestrator,
       event_type := EventType.stage_start,
       payload := [("pipeline", PyVal.str "two"),
                   ("stages", PyVal.strlist ["u1", "u2"])] } : TraceEvent).sequence = 0 :=
  (C7_theorem noEval okOutcome zeroClock 7 twoStagePipeline).1 _ (by decide)

/-! ## C8 — monotonicity of the running risk score -/

/-- Reading back a freshly written risk score. -/
theorem riskOf_dictSet (d : PyDict) (q : Rat) :
    riskOf (dictSet d "_risk_score" (PyVal.rat q)) = q := by
  unfold riskOf
  rw [dictGet_dictSet_self]

/-- Merging `context_data` that does not name `"_risk_score"` leaves the
risk score unchanged. -/
theorem riskOf_dictUpdate_no_key (c other : PyDict)
    (h : dictGet other "_risk_score" = none) :
    riskOf (dictUpdate c other) = riskOf c := by
  unfold riskOf
  rw [dictGet_dictUpdate_of_not_mem _ _ _ h]

/-- The first argument never exceeds the maximum. -/
theorem le_ratMax_left (a b : Rat) : a ≤ ratMax a b := by
  unfold ratMax
  split
  · assumption
  · exact le_refl a

/-- One context/risk update of the stage loop is monotone *provided* the
result's `context_data` does not itself contain `"_risk_score"`: the
risk score read from the context does not decrease, and it stays below
the running `max_risk`. -/
theorem updateContext_risk_mono (c : PyDict) (m : Rat) (r : PluginResult)
    (hcd : dictGet r.context_data "_risk_score" = none) (hcm : riskOf c ≤ m) :
    riskOf c ≤ riskOf (updateContextAfterStage c m r).1
    ∧ riskOf (updateContextAfterStage c m r).1 ≤ (updateContextAfterStage c m r).2 := by
  simp only [updateContextAfterStage]
  split
  · constructor
    · dsimp only
      rw [riskOf_dictSet]
      exact hcm.trans (le_ratMax_left _ _)
    · dsimp only
      rw [riskOf_dictSet]
  · dsimp only
    constructor
    · rw [riskOf_dictUpdate_no_key c r.context_data hcd]
    · rw [riskOf_dictUpdate_no_key c r.context_data hcd]
      exact hcm

/-- Induction core for the amended C8: if no plugin result smuggles a
`"_risk_score"` key through `context_data`, the ghost trace of
context risk scores grows as a `≤`-chain. -/
theorem execLoop_risk_chain (ev : CondEval) (outcome : PluginOracle) (clock : Clock)
    (job_id : Nat) (pid : String) (start_time : Nat)
    (hctx : ∀ i r, outcome i = StageOutcome.ok r →
      dictGet r.context_data "_risk_score" = none) :
    ∀ (stages : List PipelineStage) (idx : Nat) (st : ExecState),
      List.Chain' (· ≤ ·) st.risk_trace →
      (∀ x ∈ st.risk_trace.getLast?, x ≤ riskOf st.running_context) →
      riskOf st.running_context ≤ st.max_risk →
      List.Chain' (· ≤ ·)
        (execLoop ev outcome clock job_id pid start_time stages idx st).risk_trace := by
  intro stages
  induction stages with
  | nil => intro idx st h1 _ _; exact h1
  | cons stage rest ih =>
    intro idx st h1 h2 h3
    by_cases hcond : shouldExecuteStage ev stage st.last_result st.running_context = true
    · cases ho : outcome idx with
      | exc msg =>
        rw [execLoop_exc ev outcome clock job_id pid start_time stage rest idx st msg
          hcond ho]
        by_cases hopt : stage.optional = true
        · rw [if_pos hopt]
          exact ih _ _ h1 h2 h3
        · rw [if_neg hopt]
          exact h1
      | ok r =>
        rw [execLoop_ok ev outcome clock job_id pid start_time stage rest idx st r
          hcond ho]
        obtain ⟨hstep1, hstep2⟩ :=
          updateContext_risk_mono st.running_context st.max_risk r (hctx idx r ho) h3
        have hA : List.Chain' (· ≤ ·) (okState clock job_id stage r st).risk_trace := by
          show List.Chain' (· ≤ ·) (st.risk_trace ++
            [riskOf (updateContextAfterStage st.running_context st.max_risk r).1])
          rw [List.chain'_append]
          refine ⟨h1, List.chain'_singleton _, ?_⟩
          intro x hx y hy
          have hyv : riskOf (updateContextAfterStage st.running_context st.max_risk r).1
              = y := by
            simpa using hy
          rw [← hyv]
          exact (h2 x hx).trans hstep1
        have hB : ∀ x ∈ (okState clock job_id stage r st).risk_trace.getLast?,
            x ≤ riskOf (okState clock job_id stage r st).running_context := by
          show ∀ x ∈ (st.risk_trace ++
              [riskOf (updateContextAfterStage st.running_context st.max_risk r).1]).getLast?,
            x ≤ riskOf (updateContextAfterStage st.running_context st.max_risk r).1
          rw [List.getLast?_concat]
          intro x hx
          have hxv : riskOf (updateContextAfterStage st.running_context st.max_risk r).1
              = x := by
            simpa using hx
          rw [← hxv]
        have hC : riskOf (okState clock job_id stage r st).running_context
            ≤ (okState clock job_id stage r st).max_risk := hstep2
        by_cases hskip : r.skip_remaining = true
        · rw [if_pos hskip]
          exact hA
        · rw [if_neg hskip]
          exact ih _ _ hA hB hC
    · rw [execLoop_skip ev outcome clock job_id pid start_time stage rest idx st
        (by simpa using hcond)]
      exact ih _ _ h1 h2 h3

/-- Plugin behaviour in which the first stage reports the maximal risk
score 1.0 and the second writes `context_data["_risk_score"] = 0.0`
while reporting no `risk_score` of its own. -/
def riskyOutcome : PluginOracle := fun i =>
  if i = 0 then StageOutcome.ok { risk_score := some 1 }
  else StageOutcome.ok { context_data := [("_risk_score", PyVal.rat 0)] }

/-- **C8 counterexample.** `running_context.update(result.context_data)`
runs *before* the max-based risk update, and when `result.risk_score` is
falsy nothing restores the old value: after a stage reporting risk 1.0,
a stage whose `context_data` carries `"_risk_score": 0.0` drags the
observed value down from 1.0 to 0.0, so the claimed monotonicity over
arbitrary plugin results fails. -/
theorem C8_counterexample :
    (PipelineExecutor.execute noEval riskyOutcome zeroClock 8
        twoStagePipeline).risk_trace = [(1 : Rat), (0 : Rat)]
    ∧ ¬ List.Chain' (· ≤ ·)
        (PipelineExecutor.execute noEval riskyOutcome zeroClock 8
          twoStagePipeline).risk_trace
    ∧ (0 : Rat) < 1 := by
  have h : (PipelineExecutor.execute noEval riskyOutcome zeroClock 8
      twoStagePipeline).risk_trace = [(1 : Rat), (0 : Rat)] := by decide
  refine ⟨h, ?_, by norm_num⟩
  rw [h]
  intro hch
  have h01 : (1 : Rat) ≤ 0 := (List.chain'_cons.mp hch).1
  norm_num at h01

/-- Plugin behaviour with a constant risk score and empty context
data. -/
def halfRiskOutcome : PluginOracle :=
  fun _ => StageOutcome.ok { risk_score := some ((1 : Rat)/2) }

/-- **C8 (amended).** Within a single pipeline execution the observed
values of `pipeline_context["_risk_score"]` after consecutive stage
completions form a non-decreasing chain *provided no plugin result's
`context_data` contains a `"_risk_score"` key*: the executor's own
updates write `max(previous, new)`.  A plugin that writes the key
through `context_data` can lower it (see the counterexample). -/
theorem C8_theorem (ev : CondEval) (outcome : PluginOracle) (clock : Clock)
    (job_id : Nat) (pipeline : Pipeline)
    (hctx : ∀ i r, outcome i = StageOutcome.ok r →
      dictGet r.context_data "_risk_score" = none) :
    List.Chain' (· ≤ ·)
      (PipelineExecutor.execute ev outcome clock job_id pipeline).risk_trace := by
  unfold PipelineExecutor.execute
  apply execLoop_risk_chain ev outcome clock job_id pipeline.id (clock 0) hctx
  · exact List.chain'_nil
  · intro x hx
    exact absurd hx (by simp)
  · exact le_refl 0

/-- **C8 witness.** A concrete run whose plugins never touch
`"_risk_score"` through `context_data`; the theorem yields the chain. -/
theorem C8_witness :
    List.Chain' (· ≤ ·)
      (PipelineExecutor.execute noEval halfRiskOutcome zeroClock 9
        twoStagePipeline).risk_trace :=
  C8_theorem noEval halfRiskOutcome zeroClock 9 twoStagePipeline
    (fun i r h => by
      injection h with h2
      rw [← h2]
      rfl)
